import Mathlib

set_option linter.unusedVariables false

/-!
Verification of the `study_adk` repository.

Two source files are embedded:

* `3-litellm-agent/litellm_agent/agent.py` — a LiteLlm model constructed at
  module initialization (`api_key = os.getenv("OPENAI_KEY")`) and a tool
  function `get_dad_joke` that builds a five-element list of joke strings in
  its body and returns `random.choice(jokes)`.

* `4-structured-outputs/email_agent/agent.py` — a pydantic model
  `EmailContent` with two required string fields `subject` and `body`.

The random source of `random.choice` is modelled as a natural number `r`
supplied to the call; `random.choice(seq)` picks the element at an index
chosen uniformly from `[0, len(seq))`, which we embed as `seq[r % len seq]`
(with the empty-sequence error branch returning `none`).  Calls of
`get_dad_joke` are numbered by a `call` parameter so that statements about
"every call" can quantify over it.  Pydantic validation is embedded over a
small JSON value type: fields are validated in declaration order, all errors
are collected, extra keys are ignored (pydantic's default `extra='ignore'`),
and a non-string value for a `str` field is a type error (pydantic v2 does
not coerce numbers to strings in its default smart mode).
-/

/-- The five joke strings, as a module-level constant (the value the list in
the body of `get_dad_joke` always has). -/
def jokes : List String :=
  [ "Why did the chicken cross the road? To get to the other side!",
    "Why don't scientists trust atoms? Because they make up everything!",
    "Why did the scarecrow win an award? Because he was outstanding in his field!",
    "Why don't skeletons fight each other? They don't have the guts!",
    "Why did the bicycle fall over? Because it was two-tired!" ]

/-- The list literal constructed in the body of `get_dad_joke` during call
number `call`.  The Python body rebuilds the same literal on every call. -/
def jokes_at_call (call : Nat) : List String :=
  [ "Why did the chicken cross the road? To get to the other side!",
    "Why don't scientists trust atoms? Because they make up everything!",
    "Why did the scarecrow win an award? Because he was outstanding in his field!",
    "Why don't skeletons fight each other? They don't have the guts!",
    "Why did the bicycle fall over? Because it was two-tired!" ]

/-- `random.choice(seq)` with the random source made explicit: `r` is the
draw from the random number generator, reduced to an index uniformly
distributed in `[0, seq.length)`; an empty sequence raises, embedded as
`none`. -/
def random_choice (seq : List String) (r : Nat) : Option String :=
  if seq.isEmpty then none else seq[r % seq.length]?

/-- `get_dad_joke()` from `litellm_agent/agent.py`: build the joke list and
return `random.choice(jokes)`.  `call` numbers the call, `r` is the random
draw made during that call. -/
def get_dad_joke (call r : Nat) : Option String :=
  random_choice (jokes_at_call call) r

/-- The LiteLlm model wrapper: the constructor just stores the model name and
the (possibly absent) API key. -/
structure LiteLlm where
  model : String
  api_key : Option String
deriving DecidableEq

/-- `os.getenv(key)`: look the key up in the process environment, `None` when
unset. -/
def os_getenv (env : String → Option String) (key : String) : Option String :=
  env key

/-- Module initialization of `litellm_agent/agent.py`: construct the LiteLlm
model with `api_key = os.getenv("OPENAI_KEY")`.  Construction cannot fail, so
the result is always `Except.ok`. -/
def init_litellm (env : String → Option String) : Except String LiteLlm :=
  Except.ok { model := "gpt-4o-mini", api_key := os_getenv env "OPENAI_KEY" }

/-- JSON values, as far as the email agent's inputs need them. -/
inductive Json where
  | str (s : String)
  | num (n : Int)
  | arr (elems : List Json)
  | obj (fields : List (String × Json))

/-- `EmailContent` from `email_agent/agent.py`: a pydantic model with two
required string fields. -/
structure EmailContent where
  subject : String
  body : String
deriving DecidableEq, Repr

/-- A pydantic validation error for one field: the field is missing from the
input, or present with a non-string value. -/
inductive SchemaViolation where
  | missing (field : String)
  | wrongType (field : String)
deriving DecidableEq, Repr

/-- Validate one required `str` field of a pydantic model: missing key is a
`missing` error, a non-string value is a `wrongType` error (pydantic v2 does
not coerce numbers to `str`). -/
def validate_str_field (input : List (String × Json)) (name : String) :
    Except SchemaViolation String :=
  match input.lookup name with
  | none => Except.error (SchemaViolation.missing name)
  | some (Json.str s) => Except.ok s
  | some _ => Except.error (SchemaViolation.wrongType name)

/-- The list of errors carried by one field's validation result. -/
def errors_of (r : Except SchemaViolation String) : List SchemaViolation :=
  match r with
  | Except.error e => [e]
  | Except.ok _ => []

/-- Pydantic validation of `EmailContent`: validate the declared fields in
declaration order (`subject`, then `body`), collect every error, ignore keys
outside the schema (pydantic's default extra-field policy). -/
def EmailContent.model_validate (input : List (String × Json)) :
    Except (List SchemaViolation) EmailContent :=
  match validate_str_field input "subject", validate_str_field input "body" with
  | Except.ok s, Except.ok b => Except.ok { subject := s, body := b }
  | rs, rb => Except.error (errors_of rs ++ errors_of rb)

/-- The JSON-Schema-style descriptor of one string field. -/
def str_field_schema (title descr : String) : Json :=
  Json.obj
    [ ("description", Json.str descr),
      ("title", Json.str title),
      ("type", Json.str "string") ]

/-- Serializing the `EmailContent` schema to its structural descriptor on
serialization occasion `call`: the descriptor is computed from the class
definition alone, so the occasion plays no role. -/
def EmailContent.model_json_schema (call : Nat) : Json :=
  Json.obj
    [ ("title", Json.str "EmailContent"),
      ("type", Json.str "object"),
      ("properties",
        Json.obj
          [ ("subject", str_field_schema "Subject" "The subject of the email"),
            ("body", str_field_schema "Body" "The body of the email") ]),
      ("required", Json.arr [Json.str "subject", Json.str "body"]) ]

/-- C1: every value returned by a call of `get_dad_joke` is an element of the
fixed five-element joke set; no call returns a string outside that set. -/
theorem get_dad_joke_mem_jokes (call r : Nat) (s : String)
    (h : get_dad_joke call r = some s) : s ∈ jokes ∧ jokes.length = 5 := by
  refine ⟨?_, rfl⟩
  have h5 : r % 5 < 5 := Nat.mod_lt r (by omega)
  simp only [get_dad_joke, random_choice, jokes_at_call, List.isEmpty_cons,
    List.length_cons, List.length_nil, if_false] at h
  have hm : s ∈ jokes_at_call call := List.getElem?_mem h
  exact hm

theorem get_dad_joke_mem_jokes_witness :
    get_dad_joke 0 2 = some "Why did the scarecrow win an award? Because he was outstanding in his field!" ∧
    ("Why did the scarecrow win an award? Because he was outstanding in his field!" ∈ jokes ∧
      jokes.length = 5) :=
  ⟨by decide, get_dad_joke_mem_jokes 0 2 _ (by decide)⟩

/-- C5: the selection is an unbiased uniform pick: over the five equally
likely random indices, each joke in the set is returned for exactly one
index. -/
theorem get_dad_joke_uniform (call : Nat) (j : String) (hj : j ∈ jokes) :
    ((List.range jokes.length).filter
      (fun r => decide (get_dad_joke call r = some j))).length = 1 := by
  have hc : get_dad_joke call = get_dad_joke 0 := rfl
  rw [hc]
  fin_cases hj <;> decide

theorem get_dad_joke_uniform_witness :
    "Why did the bicycle fall over? Because it was two-tired!" ∈ jokes ∧
    ((List.range jokes.length).filter
      (fun r => decide (get_dad_joke 0 r =
        some "Why did the bicycle fall over? Because it was two-tired!"))).length = 1 :=
  ⟨by decide, get_dad_joke_uniform 0 _ (by decide)⟩

/-- C6: `get_dad_joke` has no failure mode: the joke list built in its body is
statically non-empty, so the empty-selection branch is unreachable and every
call returns a string. -/
theorem get_dad_joke_total (call r : Nat) :
    (jokes_at_call call).isEmpty = false ∧ ∃ s, get_dad_joke call r = some s := by
  refine ⟨rfl, ?_⟩
  have h5 : r % 5 < 5 := Nat.mod_lt r (by omega)
  simp only [get_dad_joke, random_choice, jokes_at_call, List.isEmpty_cons,
    List.length_cons, List.length_nil, if_false]
  exact ⟨_, List.getElem?_eq_getElem (by simpa using h5)⟩

/-- C7: the joke list is observationally a module-level constant: the list
constructed during any call equals the list constructed during any other
call and equals the fixed constant `jokes`, and `get_dad_joke` selects from
that constant on every call. -/
theorem jokes_constant_across_calls (n m : Nat) :
    jokes_at_call n = jokes_at_call m ∧ jokes_at_call n = jokes ∧
    get_dad_joke n = fun r => random_choice jokes r :=
  ⟨rfl, rfl, rfl⟩

/-- C9: with `OPENAI_KEY` unset, module initialization of the litellm agent
still succeeds: `os.getenv` yields `none` and the LiteLlm model is
constructed with `api_key = none`, with no error at configuration time. -/
theorem init_litellm_no_key_ok (env : String → Option String)
    (h : env "OPENAI_KEY" = none) :
    init_litellm env = Except.ok { model := "gpt-4o-mini", api_key := none } := by
  simp [init_litellm, os_getenv, h]

theorem init_litellm_no_key_ok_witness :
    (fun (_ : String) => (none : Option String)) "OPENAI_KEY" = none ∧
    init_litellm (fun _ => none) = Except.ok { model := "gpt-4o-mini", api_key := none } :=
  ⟨rfl, init_litellm_no_key_ok (fun _ => none) rfl⟩

/-- C4: validation of `{"subject": "Hi", "body": "Hello"}` succeeds, and the
`subject` and `body` accessors of the validated record return `"Hi"` and
`"Hello"`. -/
theorem validate_accepts_subject_body :
    EmailContent.model_validate [("subject", Json.str "Hi"), ("body", Json.str "Hello")] =
      Except.ok { subject := "Hi", body := "Hello" } ∧
    (EmailContent.mk "Hi" "Hello").subject = "Hi" ∧
    (EmailContent.mk "Hi" "Hello").body = "Hello" :=
  ⟨rfl, rfl, rfl⟩

/-- C2: validation of `{"subject": "Hi"}` (with `body` absent) fails with a
schema violation naming the missing field `body`, and no `EmailContent`
value is produced. -/
theorem validate_missing_body_rejects :
    EmailContent.model_validate [("subject", Json.str "Hi")] =
      Except.error [SchemaViolation.missing "body"] :=
  rfl

/-- C3: validation of `{"subject": 123, "body": "Hello"}` (where `subject` is
a number, not a string) fails with a schema violation naming the mismatched
field `subject`. -/
theorem validate_wrong_type_subject_rejects :
    EmailContent.model_validate [("subject", Json.num 123), ("body", Json.str "Hello")] =
      Except.error [SchemaViolation.wrongType "subject"] :=
  rfl

/-- C10: validation accepts inputs with extra fields beyond `subject` and
`body`: the extras are ignored and the accessors see the same values as
without them. -/
theorem validate_ignores_extra_fields :
    EmailContent.model_validate
      [("subject", Json.str "Hi"), ("body", Json.str "Hello"), ("attachments", Json.arr [])] =
      Except.ok { subject := "Hi", body := "Hello" } ∧
    EmailContent.model_validate
      [("subject", Json.str "Hi"), ("body", Json.str "Hello"), ("attachments", Json.arr [])] =
      EmailContent.model_validate [("subject", Json.str "Hi"), ("body", Json.str "Hello")] :=
  ⟨rfl, rfl⟩

/-- C8: serializing the `EmailContent` schema to its structural descriptor
twice yields identical output: the descriptor depends only on the schema
definition, not on any hidden state of the serialization occasion. -/
theorem model_json_schema_deterministic (n m : Nat) :
    EmailContent.model_json_schema n = EmailContent.model_json_schema m :=
  rfl
